import Mathlib

/-!
Shallow embedding of the LocalMIND backend core (session_manager.py,
orchestrator.py, profiles.py) and proofs of the spec claims about it.

The SQLite tables (database.py) are modelled as lists of row records inside a
`DB` value; SQL queries become list operations (`filter` for WHERE,
`insertionSort` by `id` for ORDER BY id ASC, `take` for LIMIT).  The Ollama
inference call is modelled as a caller-supplied function returning `Except`
(a raised exception is the `error` case), and the two database writes of the
compaction commit are modelled with success flags: any failure takes the
`except`-branch of the Python code, which rolls the transaction back, so the
resulting state is the original `DB`.
-/

namespace LocalMIND

/-- session_manager.py: `ACTIVE_WINDOW_SIZE = 10`. -/
def ACTIVE_WINDOW_SIZE : Nat := 10

/-- session_manager.py: `CHUNK_SIZE = 5`. -/
def CHUNK_SIZE : Nat := 5

/-- A row of the `chats` table (database.py).  `timestamp` and `model_used`
play no role in any claim and are omitted from the row model. -/
structure ChatRow where
  id : Nat
  session_id : String
  role : String
  content : String
  is_summarized : Bool
deriving DecidableEq

/-- A row of the `session_summaries` table (database.py), minus `timestamp`. -/
structure SummaryRow where
  id : Nat
  session_id : String
  content : String
  start_chat_id : Nat
  end_chat_id : Nat
deriving DecidableEq

/-- A row of the `users` table (database.py); `preferences` kept as raw text. -/
structure UserRow where
  user_id : String
  display_name : String
  workspace : String
  preferences : String
deriving DecidableEq

/-- A row of the `model_configs` table (database.py). -/
structure ModelRow where
  model_id : String
  display_name : String
  context_limit : Nat
  base_system_prompt : String
deriving DecidableEq

/-- The SQLite database state.  `nextSummaryId` models the AUTOINCREMENT
counter of `session_summaries`. -/
structure DB where
  users : List UserRow
  model_configs : List ModelRow
  chats : List ChatRow
  session_summaries : List SummaryRow
  nextSummaryId : Nat
deriving DecidableEq

/-- ORDER BY id ASC on `chats` rows. -/
def chatLe (a b : ChatRow) : Prop := a.id ≤ b.id

instance : DecidableRel chatLe := fun a b => Nat.decLe a.id b.id

instance : IsTotal ChatRow chatLe := ⟨fun a b => Nat.le_total a.id b.id⟩

instance : IsTrans ChatRow chatLe := ⟨fun _ _ _ h h' => Nat.le_trans h h'⟩

/-- ORDER BY id ASC on `session_summaries` rows. -/
def sumLe (a b : SummaryRow) : Prop := a.id ≤ b.id

instance : DecidableRel sumLe := fun a b => Nat.decLe a.id b.id

instance : IsTotal SummaryRow sumLe := ⟨fun a b => Nat.le_total a.id b.id⟩

instance : IsTrans SummaryRow sumLe := ⟨fun _ _ _ h h' => Nat.le_trans h h'⟩

def sortChats (l : List ChatRow) : List ChatRow := List.insertionSort chatLe l

def sortSums (l : List SummaryRow) : List SummaryRow := List.insertionSort sumLe l

/-- WHERE clause of the compaction queries:
`session_id = ? AND is_summarized = 0`. -/
def chatP (sid : String) (r : ChatRow) : Bool := r.session_id == sid && !r.is_summarized

/-- `SELECT ... FROM chats WHERE session_id = ? AND is_summarized = 0`. -/
def unsummarizedChats (db : DB) (sid : String) : List ChatRow :=
  db.chats.filter (chatP sid)

/-- Step 1 of `check_and_compact`:
`SELECT COUNT(*) FROM chats WHERE session_id = ? AND is_summarized = 0`. -/
def countUnsummarized (db : DB) (sid : String) : Nat :=
  (unsummarizedChats db sid).length

/-- Step 2 of `check_and_compact`: the oldest `CHUNK_SIZE` unsummarized rows,
`ORDER BY id ASC LIMIT CHUNK_SIZE`. -/
def selectChunk (db : DB) (sid : String) : List ChatRow :=
  (sortChats (unsummarizedChats db sid)).take CHUNK_SIZE

/-- One line of the chunk text block (step 3 of `check_and_compact`):
`role_label = "User" if row.role == 'user' else "AI"`. -/
def chunkLine (r : ChatRow) : String :=
  (if r.role = "user" then "User" else "AI") ++ ": " ++ r.content ++ "\n"

/-- Step 3 of `check_and_compact`: the accumulated `text_block`. -/
def formatChunk (rows : List ChatRow) : String :=
  String.join (rows.map chunkLine)

/-- The fixed compaction prompt f-string of `check_and_compact`
(triple-quoted in the source, indentation included). -/
def compactionPrompt (text_block : String) : String :=
  "\n            Compress the following conversation segment into a single concise paragraph.\n            Capture the key topics, decisions, or facts mentioned.\n            Do not lose technical details (like error codes or library names).\n            \n            CONVERSATION:\n            " ++ text_block ++ "\n            \n            SUMMARY:\n            "

/-- Python `str.strip()` on the Ollama response, over the character list
(kernel-friendly replacement for `String.trim`). -/
def isPySpace (c : Char) : Bool := c = ' ' || c = '\n' || c = '\t' || c = '\r'

def pyStrip (s : String) : String :=
  String.mk (((s.data.dropWhile isPySpace).reverse.dropWhile isPySpace).reverse)

/-- `UPDATE chats SET is_summarized = 1 WHERE id IN (ids)` — note the source
statement filters by id only, with no session restriction. -/
def setSummarizedIf (ids : List Nat) (r : ChatRow) : ChatRow :=
  if r.id ∈ ids then { r with is_summarized := true } else r

def markSummarized (chats : List ChatRow) (ids : List Nat) : List ChatRow :=
  chats.map (setSummarizedIf ids)

/-- Step 5 of `check_and_compact`: the committed transaction — INSERT one
`session_summaries` row covering `[rows[0].id, rows[-1].id]`, then UPDATE the
chunk rows' `is_summarized` flags. -/
def commitCompaction (db : DB) (sid : String) (rows : List ChatRow) (summary : String) : DB :=
  { db with
    chats := markSummarized db.chats (rows.map (fun r => r.id)),
    session_summaries := db.session_summaries ++
      [{ id := db.nextSummaryId, session_id := sid, content := summary,
         start_chat_id := ((rows.head?).map (fun r => r.id)).getD 0,
         end_chat_id := ((rows.getLast?).map (fun r => r.id)).getD 0 }],
    nextSummaryId := db.nextSummaryId + 1 }

/-- `SessionManager.check_and_compact`.  `chatFn` is the `ollama.chat` call
(`Except.error` = raised exception); `insertOk`/`updateOk` model the two
database writes of the commit.  Any failure lands in the `except` block of the
source, which logs, rolls the uncommitted transaction back and returns, so
those paths yield the original `db`. -/
def checkAndCompact (db : DB) (sid : String) (model_name : String)
    (chatFn : String → Except String String) (insertOk updateOk : Bool) : DB :=
  if countUnsummarized db sid ≤ ACTIVE_WINDOW_SIZE then db
  else
    match selectChunk db sid with
    | [] => db
    | r0 :: rest =>
      match chatFn (compactionPrompt (formatChunk (r0 :: rest))) with
      | Except.error _ => db
      | Except.ok response =>
        if insertOk && updateOk then
          commitCompaction db sid (r0 :: rest) (pyStrip response)
        else db

/-- `SELECT content FROM session_summaries WHERE session_id = ? ORDER BY id ASC`. -/
def chaptersOf (db : DB) (sid : String) : List SummaryRow :=
  sortSums (db.session_summaries.filter (fun r => r.session_id == sid))

/-- Body of `SessionManager.get_session_summary` after the query returned. -/
def summaryText (rows : List SummaryRow) : String :=
  if rows.isEmpty then ""
  else String.intercalate "\n" (rows.map (fun r => "- " ++ r.content))

/-- `SessionManager.get_session_summary` with the database read made explicit:
the `except` block turns any raised error into the empty string. -/
def getSessionSummaryFrom (res : Except String (List SummaryRow)) : String :=
  match res with
  | Except.error _ => ""
  | Except.ok rows => summaryText rows

/-- `SessionManager.get_session_summary` on a healthy database. -/
def get_session_summary (db : DB) (sid : String) : String :=
  getSessionSummaryFrom (Except.ok (chaptersOf db sid))

/-! ## profiles.py -/

/-- `SELECT * FROM users WHERE user_id = ?`. -/
def findUser (db : DB) (uid : String) : Option UserRow :=
  db.users.find? (fun u => u.user_id == uid)

/-- `SELECT * FROM model_configs WHERE model_id = ?`. -/
def findModel (db : DB) (mid : String) : Option ModelRow :=
  db.model_configs.find? (fun m => m.model_id == mid)

/-- The dict returned by `get_user_profile` (profiles.py); `preferences` is
kept as the raw stored text. -/
structure UserProfile where
  user_id : String
  display_name : String
  workspace : String
  preferences : String
deriving DecidableEq

/-- `get_user_profile` (profiles.py): row lookup with the guest fallback. -/
def get_user_profile (db : DB) (uid : String) : UserProfile :=
  match findUser db uid with
  | some u => { user_id := u.user_id, display_name := u.display_name,
                workspace := u.workspace, preferences := u.preferences }
  | none => { user_id := "guest", display_name := "Guest",
              workspace := "Guest Workspace", preferences := "" }

/-- The dict returned by `get_model_profile` (profiles.py). -/
structure ModelProfile where
  model_id : String
  display_name : String
  context_limit : Nat
  base_system_prompt : String
  prompt_template : String
deriving DecidableEq

/-- Python's contiguous-substring test `pat in s`, over character lists. -/
def matchesAt (pat s : List Char) : Bool :=
  match pat, s with
  | [], _ => true
  | _ :: _, [] => false
  | p :: ps, c :: cs => p == c && matchesAt ps cs

def hasSubList (pat s : List Char) : Bool :=
  match s with
  | [] => matchesAt pat []
  | _ :: cs => matchesAt pat s || hasSubList pat cs

def strContainsSub (s pat : String) : Bool := hasSubList pat.data s.data

/-- The default-profile branch of `get_model_profile`: generic profile plus
the `if "phi3" in ... elif "qwen" in ...` name-substring heuristic. -/
def defaultModelProfile (model_name : String) : ModelProfile :=
  let base : ModelProfile :=
    { model_id := model_name, display_name := model_name, context_limit := 4096,
      base_system_prompt := "You are a helpful local assistant.",
      prompt_template := "standard_chat" }
  if strContainsSub model_name "phi3" then
    { base with display_name := "Phi-3 Mini", context_limit := 128000 }
  else if strContainsSub model_name "qwen" then
    { base with display_name := "Qwen 2.5",
                base_system_prompt := "You are Qwen, a helpful assistant." }
  else base

/-- `get_model_profile` (profiles.py). -/
def get_model_profile (db : DB) (model_name : String) : ModelProfile :=
  match findModel db model_name with
  | some m => { model_id := m.model_id, display_name := m.display_name,
                context_limit := m.context_limit,
                base_system_prompt := m.base_system_prompt,
                prompt_template := "standard_chat" }
  | none => defaultModelProfile model_name

/-! ## orchestrator.py -/

/-- An element of the `memories` list (semantic hit with a `content` key). -/
structure Memory where
  content : String
deriving DecidableEq

/-- An element of the `history` list (`role`/`content` dict). -/
structure HistItem where
  role : String
  content : String
deriving DecidableEq

/-- `identity_overrides`: the override keys that can reach the rendered
schema (`user_profile.update(identity_overrides)`). -/
structure Overrides where
  display_name : Option String
  workspace : Option String
deriving DecidableEq

def applyOverrides (p : UserProfile) (o : Option Overrides) : UserProfile :=
  match o with
  | none => p
  | some ov => { p with
      display_name := ov.display_name.getD p.display_name,
      workspace := ov.workspace.getD p.workspace }

/-- The schema dict built by `Orchestrator.build_context_schema`, with the
nested dicts flattened into fields. -/
structure ContextSchema where
  meta_user_profile : UserProfile
  meta_model_profile : ModelProfile
  token_estimate : Nat
  system : String
  identity_user_name : String
  identity_workspace : String
  identity_assistant_name : String
  memory_long_term : List Memory
  memory_short_term : String
  rag_context : String
  history : List HistItem
  current_message : String
deriving DecidableEq

/-- `system_prompt_override or model_profile.get("base_system_prompt", ...)`:
Python `or` falls through on `None` and on the empty string. -/
def sysPromptOf (ov : Option String) (mp : ModelProfile) : String :=
  match ov with
  | some s => if s = "" then mp.base_system_prompt else s
  | none => mp.base_system_prompt

/-- `if not session_summary_block: session_summary_block = "New session started."` -/
def shortTermBlock (s : String) : String :=
  if s = "" then "New session started." else s

/-- `Orchestrator.build_context_schema`.  The database parameter makes the
three reads the Python method performs (user profile, model profile, session
summaries — always for user `"demo_user"` and session `"default_session"`)
explicit. -/
def build_context_schema (db : DB) (user_message model_name : String)
    (system_prompt_override : Option String) (memories : List Memory)
    (rag_context : String) (history : List HistItem)
    (identity_overrides : Option Overrides) : ContextSchema :=
  let user_profile := applyOverrides (get_user_profile db "demo_user") identity_overrides
  let model_profile := get_model_profile db model_name
  { meta_user_profile := user_profile,
    meta_model_profile := model_profile,
    token_estimate := user_message.length / 4 + 500,
    system := sysPromptOf system_prompt_override model_profile,
    identity_user_name := user_profile.display_name,
    identity_workspace := user_profile.workspace,
    identity_assistant_name := "LocalMIND Agent",
    memory_long_term := memories,
    memory_short_term := shortTermBlock (get_session_summary db "default_session"),
    rag_context := rag_context,
    history := history,
    current_message := user_message }

/-- One line of the RECENT HISTORY block:
`role = "User" if h['role'] == 'user' else "Assistant"`. -/
def histLine (h : HistItem) : String :=
  (if h.role = "user" then "User" else "Assistant") ++ ": " ++ h.content ++ "\n"

/-- `Orchestrator.render_final_prompt`: the fixed f-string template. -/
def render_final_prompt (schema : ContextSchema) : String :=
  let identity_block :=
    "User: " ++ schema.identity_user_name ++ "\nWorkspace: " ++ schema.identity_workspace
  let ltm :=
    if schema.memory_long_term.isEmpty then "No relevant long-term memories."
    else String.intercalate "\n" (schema.memory_long_term.map (fun m => "- " ++ m.content))
  let rag :=
    if schema.rag_context = "" then "No relevant documents found." else schema.rag_context
  let hist_str := String.join (schema.history.map histLine)
  "=== SYSTEM ===\n" ++ schema.system ++
  "\n\n=== IDENTITY ===\n" ++ identity_block ++
  "\n\n=== PREVIOUS SESSION CONTEXT ===\n(Summary of earlier conversation)\n" ++
  schema.memory_short_term ++
  "\n\n=== LONG-TERM MEMORY (RAG) ===\n" ++ ltm ++
  "\n\n=== RETRIEVED DOCUMENTS ===\n" ++ rag ++
  "\n\n=== RECENT HISTORY ===\n" ++ hist_str ++
  "\n=== CURRENT MESSAGE ===\nUser: " ++ schema.current_message ++
  "\n\nAssistant:"

/-! ## Line-level view of rendered prompts (for analysing section layout) -/

/-- Split a character list into newline-separated lines (the accumulator holds
the current line reversed). -/
def splitLinesAux : List Char → List Char → List String
  | [], acc => [String.mk acc.reverse]
  | c :: cs, acc =>
    if c = '\n' then String.mk acc.reverse :: splitLinesAux cs []
    else splitLinesAux cs (c :: acc)

def promptLines (p : String) : List String := splitLinesAux p.data []

/-- A section delimiter line of the rendered template. -/
def isDelimLine (l : String) : Bool := matchesAt ("=== ").data l.data

/-- The lines of the section introduced by `delim`: everything after the first
occurrence of the delimiter line, up to the next delimiter line. -/
def sectionBody (ls : List String) (delim : String) : List String :=
  ((ls.dropWhile (fun l => !(l == delim))).drop 1).takeWhile (fun l => !(isDelimLine l))

def dropTrailingBlanks (ls : List String) : List String :=
  (ls.reverse.dropWhile (fun l => l == "")).reverse

/-! ## Spec-side rendering template (for the refinement statement of C5) -/

/-- The amended fixed-section template, written independently as a list of
labelled sections: SYSTEM, IDENTITY, PREVIOUS SESSION CONTEXT (whose body
starts with the fixed line `(Summary of earlier conversation)`),
LONG-TERM MEMORY (RAG), RETRIEVED DOCUMENTS. -/
def specSectionsOf (schema : ContextSchema) : List (String × String) :=
  [("SYSTEM", schema.system),
   ("IDENTITY",
     "User: " ++ schema.identity_user_name ++ "\nWorkspace: " ++ schema.identity_workspace),
   ("PREVIOUS SESSION CONTEXT",
     "(Summary of earlier conversation)\n" ++ schema.memory_short_term),
   ("LONG-TERM MEMORY (RAG)",
     if schema.memory_long_term.isEmpty then "No relevant long-term memories."
     else String.intercalate "\n" (schema.memory_long_term.map (fun m => "- " ++ m.content))),
   ("RETRIEVED DOCUMENTS",
     if schema.rag_context = "" then "No relevant documents found." else schema.rag_context)]

/-- The amended claim's rendering: each labelled section in order, then
RECENT HISTORY (one line per history item, in input order), then
CURRENT MESSAGE ending with the literal suffix `"Assistant:"`. -/
def specRenderedPrompt (schema : ContextSchema) : String :=
  String.join ((specSectionsOf schema).map
    (fun sec => "=== " ++ sec.1 ++ " ===\n" ++ sec.2 ++ "\n\n")) ++
  "=== RECENT HISTORY ===\n" ++
  String.join (schema.history.map histLine) ++
  "\n=== CURRENT MESSAGE ===\nUser: " ++ schema.current_message ++ "\n\nAssistant:"

/-! ## Concrete fixtures used by witnesses and counterexamples -/

def emptyDB : DB :=
  { users := [], model_configs := [], chats := [], session_summaries := [], nextSummaryId := 1 }

def mkChat (i : Nat) (sid role content : String) : ChatRow :=
  { id := i, session_id := sid, role := role, content := content, is_summarized := false }

/-- A session `"s"` with 11 unsummarized turns (ids 1..11, roles alternating). -/
def dbBacklog : DB :=
  { users := [], model_configs := [],
    chats := (List.range 11).map (fun i =>
      mkChat (i + 1) "s" (if i % 2 = 0 then "user" else "assistant") ("m" ++ toString (i + 1))),
    session_summaries := [], nextSummaryId := 1 }

/-- Scenario B: empty session, no semantic hits, no RAG context, no chapters. -/
def scenarioBPrompt : String :=
  render_final_prompt (build_context_schema emptyDB "Hello" "foo-bar" none [] "" [] none)

/-- A database differing from `emptyDB` only in stored state (one summary
chapter for the default session), not in any aggregator argument. -/
def dbOneChapter : DB :=
  { users := [], model_configs := [], chats := [],
    session_summaries :=
      [{ id := 1, session_id := "default_session", content := "We discussed error 42.",
         start_chat_id := 1, end_chat_id := 5 }],
    nextSummaryId := 2 }

/-- String append is associative (used to normalise rendered prompts). -/
theorem sAppend_assoc (a b c : String) : a ++ b ++ c = a ++ (b ++ c) := by
  apply String.ext
  simp

/-! ## Helper lemmas about the compaction engine -/

theorem countP_and_split {α : Type} (p q : α → Bool) (l : List α) :
    List.countP p l
      = List.countP (fun a => p a && q a) l + List.countP (fun a => p a && !q a) l := by
  induction l with
  | nil => simp
  | cons a t ih =>
    cases hp : p a <;> cases hq : q a <;>
      simp [List.countP_cons, hp, hq, ih] <;> omega

theorem countUnsummarized_eq_countP (db : DB) (sid : String) :
    countUnsummarized db sid = List.countP (chatP sid) db.chats := by
  unfold countUnsummarized unsummarizedChats
  exact (List.countP_eq_length_filter _ _).symm

theorem mem_selectChunk_mem_unsummarized (db : DB) (sid : String) {r : ChatRow}
    (hr : r ∈ selectChunk db sid) : r ∈ unsummarizedChats db sid := by
  have h1 : r ∈ sortChats (unsummarizedChats db sid) := List.take_subset _ _ hr
  exact (List.mem_insertionSort chatLe).mp h1

theorem selectChunk_length (db : DB) (sid : String)
    (hgt : ACTIVE_WINDOW_SIZE < countUnsummarized db sid) :
    (selectChunk db sid).length = CHUNK_SIZE := by
  unfold selectChunk
  rw [List.length_take]
  have hlen : (sortChats (unsummarizedChats db sid)).length = countUnsummarized db sid :=
    (List.perm_insertionSort chatLe _).length_eq
  rw [hlen]
  exact min_eq_left (by simp only [ACTIVE_WINDOW_SIZE, CHUNK_SIZE] at hgt ⊢; omega)

theorem selectChunk_sorted (db : DB) (sid : String) :
    List.Sorted chatLe (selectChunk db sid) :=
  List.Pairwise.sublist (List.take_sublist _ _) (List.sorted_insertionSort chatLe _)

/-- Decomposition of the sorted unsummarized list into the selected chunk and
the remainder. -/
theorem selectChunk_append_drop (db : DB) (sid : String) :
    selectChunk db sid ++ (sortChats (unsummarizedChats db sid)).drop CHUNK_SIZE
      = sortChats (unsummarizedChats db sid) :=
  List.take_append_drop _ _

theorem nodup_sorted_unsummarized_ids (db : DB) (sid : String)
    (hnodup : (db.chats.map (fun r => r.id)).Nodup) :
    ((sortChats (unsummarizedChats db sid)).map (fun r => r.id)).Nodup := by
  have h1 : ((unsummarizedChats db sid).map (fun r => r.id)).Nodup :=
    List.Nodup.sublist (List.Sublist.map _ (List.filter_sublist _)) hnodup
  have h2 := (List.perm_insertionSort chatLe (unsummarizedChats db sid)).map (fun r => r.id)
  exact (List.Perm.nodup_iff h2).mpr h1

/-- Every id of the sorted remainder avoids the chunk ids. -/
theorem drop_ids_disjoint (db : DB) (sid : String)
    (hnodup : (db.chats.map (fun r => r.id)).Nodup) :
    ∀ r ∈ (sortChats (unsummarizedChats db sid)).drop CHUNK_SIZE,
      r.id ∉ (selectChunk db sid).map (fun q => q.id) := by
  intro r hr hmem
  have hsplit := selectChunk_append_drop db sid
  have hnods := nodup_sorted_unsummarized_ids db sid hnodup
  rw [← hsplit, List.map_append] at hnods
  have hdisj := (List.nodup_append.mp hnods).2.2
  exact hdisj hmem (List.mem_map_of_mem _ hr)

/-- Unsummarized rows outside the chunk ids are exactly the rows left in the
sorted remainder. -/
theorem mem_drop_of_not_sel (db : DB) (sid : String) {q : ChatRow}
    (hq : q ∈ unsummarizedChats db sid)
    (hnot : q.id ∉ (selectChunk db sid).map (fun r => r.id)) :
    q ∈ (sortChats (unsummarizedChats db sid)).drop CHUNK_SIZE := by
  have h1 : q ∈ sortChats (unsummarizedChats db sid) :=
    (List.mem_insertionSort chatLe).mpr hq
  rw [← selectChunk_append_drop db sid, List.mem_append] at h1
  rcases h1 with h | h
  · exact absurd (List.mem_map_of_mem _ h) hnot
  · exact h

/-- Minimality of the selected chunk: every selected row's id is at most the
id of every unsummarized row that was not selected. -/
theorem selectChunk_min (db : DB) (sid : String) :
    ∀ r ∈ selectChunk db sid, ∀ q ∈ unsummarizedChats db sid,
      q.id ∉ (selectChunk db sid).map (fun x => x.id) → r.id ≤ q.id := by
  intro r hr q hq hnot
  have hqd := mem_drop_of_not_sel db sid hq hnot
  have hsorted : List.Sorted chatLe (sortChats (unsummarizedChats db sid)) :=
    List.sorted_insertionSort chatLe _
  rw [← selectChunk_append_drop db sid] at hsorted
  exact (List.pairwise_append.mp hsorted).2.2 r hr q hqd

/-- With globally unique chat ids, any stored row whose id is among the chunk
ids is one of the chunk rows. -/
theorem sel_of_mem_ids (db : DB) (sid : String)
    (hnodup : (db.chats.map (fun r => r.id)).Nodup) :
    ∀ r ∈ db.chats, r.id ∈ (selectChunk db sid).map (fun x => x.id) →
      r ∈ selectChunk db sid := by
  intro r hr hid
  rcases List.mem_map.mp hid with ⟨c, hc, hcid⟩
  have hcU : c ∈ unsummarizedChats db sid := mem_selectChunk_mem_unsummarized db sid hc
  have hcChats : c ∈ db.chats := (List.filter_sublist _).subset hcU
  have : c = r := List.inj_on_of_nodup_map hnodup hcChats hr hcid
  exact this ▸ hc

theorem chatP_setSummarizedIf (sid : String) (ids : List Nat) (r : ChatRow) :
    chatP sid (setSummarizedIf ids r) = (!(decide (r.id ∈ ids)) && chatP sid r) := by
  by_cases hin : r.id ∈ ids
  · simp [setSummarizedIf, hin, chatP]
  · simp [setSummarizedIf, hin]

/-- The committed compaction lowers the unsummarized count of the session by
exactly `CHUNK_SIZE`. -/
theorem count_commitCompaction (db : DB) (sid : String) (summary : String)
    (hnodup : (db.chats.map (fun r => r.id)).Nodup)
    (hgt : ACTIVE_WINDOW_SIZE < countUnsummarized db sid) :
    countUnsummarized (commitCompaction db sid (selectChunk db sid) summary) sid
      = countUnsummarized db sid - CHUNK_SIZE := by
  have hperm : List.Perm (sortChats (unsummarizedChats db sid)) (unsummarizedChats db sid) :=
    List.perm_insertionSort chatLe _
  -- the new count, over the flipped chat list
  have hnew : countUnsummarized (commitCompaction db sid (selectChunk db sid) summary) sid
      = List.countP (fun r => chatP sid r
          && !(decide (r.id ∈ (selectChunk db sid).map (fun x => x.id)))) db.chats := by
    rw [countUnsummarized_eq_countP]
    show List.countP (chatP sid)
        (List.map (setSummarizedIf ((selectChunk db sid).map (fun x => x.id))) db.chats) = _
    rw [List.countP_map]
    apply List.countP_congr
    intro r _
    rw [Function.comp_apply, chatP_setSummarizedIf, Bool.and_comm]
  -- the rows with selected ids account for exactly CHUNK_SIZE of the old count
  have hin_count : List.countP (fun r => chatP sid r
      && decide (r.id ∈ (selectChunk db sid).map (fun x => x.id))) db.chats = CHUNK_SIZE := by
    have h1 : List.countP (fun r => chatP sid r
        && decide (r.id ∈ (selectChunk db sid).map (fun x => x.id))) db.chats
        = List.countP (fun r => decide (r.id ∈ (selectChunk db sid).map (fun x => x.id))
            && chatP sid r) db.chats := by
      apply List.countP_congr
      intro r _
      rw [Bool.and_comm]
    rw [h1, ← List.countP_filter]
    show List.countP _ (unsummarizedChats db sid) = CHUNK_SIZE
    rw [← List.Perm.countP_eq _ hperm, ← selectChunk_append_drop db sid, List.countP_append]
    have hall : List.countP
        (fun r => decide (r.id ∈ (selectChunk db sid).map (fun x => x.id)))
        (selectChunk db sid) = (selectChunk db sid).length := by
      rw [List.countP_eq_length]
      intro r hr
      simpa using List.mem_map_of_mem (fun x => x.id) hr
    have hnone : List.countP
        (fun r => decide (r.id ∈ (selectChunk db sid).map (fun x => x.id)))
        ((sortChats (unsummarizedChats db sid)).drop CHUNK_SIZE) = 0 := by
      rw [List.countP_eq_zero]
      intro r hr
      simpa using drop_ids_disjoint db sid hnodup r hr
    rw [hall, hnone, selectChunk_length db sid hgt]
    omega
  have hsplit := countP_and_split (chatP sid)
    (fun r => decide (r.id ∈ (selectChunk db sid).map (fun x => x.id))) db.chats
  have hold := countUnsummarized_eq_countP db sid
  rw [hnew]
  omega

/-- Below the threshold, `check_and_compact` returns without touching state. -/
theorem checkAndCompact_of_le (db : DB) (sid m : String)
    (chatFn : String → Except String String) (insertOk updateOk : Bool)
    (hle : countUnsummarized db sid ≤ ACTIVE_WINDOW_SIZE) :
    checkAndCompact db sid m chatFn insertOk updateOk = db := by
  unfold checkAndCompact
  rw [if_pos hle]

/-- Any failure of the inference call or of either write leaves the database
exactly as it was (the `except` block rolls the transaction back). -/
theorem checkAndCompact_failure_eq (db : DB) (sid m : String)
    (chatFn : String → Except String String) (insertOk updateOk : Bool)
    (hfail : (∀ p, ∃ e, chatFn p = Except.error e)
      ∨ insertOk = false ∨ updateOk = false) :
    checkAndCompact db sid m chatFn insertOk updateOk = db := by
  unfold checkAndCompact
  split
  · rfl
  · split
    · rfl
    · split
      · rfl
      · rename_i response heq
        rcases hfail with hf | hio | huo
        · obtain ⟨e, he⟩ := hf _
          rw [he] at heq
          cases heq
        · rw [hio]
          simp
        · rw [huo]
          simp

/-- Above the threshold with a nonempty chunk, a successful call commits the
compaction of the selected chunk. -/
theorem checkAndCompact_success_eq (db : DB) (sid m s : String) (r0 : ChatRow)
    (rest : List ChatRow)
    (hgt : ACTIVE_WINDOW_SIZE < countUnsummarized db sid)
    (hsel : selectChunk db sid = r0 :: rest) :
    checkAndCompact db sid m (fun _ => Except.ok s) true true
      = commitCompaction db sid (r0 :: rest) (pyStrip s) := by
  unfold checkAndCompact
  rw [if_neg (not_le.mpr hgt), hsel]
  rfl

/-- `check_and_compact` never changes the set of chat ids, only flags. -/
theorem checkAndCompact_chats_ids (db : DB) (sid m : String)
    (chatFn : String → Except String String) (insertOk updateOk : Bool) :
    ((checkAndCompact db sid m chatFn insertOk updateOk).chats).map (fun r => r.id)
      = db.chats.map (fun r => r.id) := by
  unfold checkAndCompact
  split
  · rfl
  · split
    · rfl
    · split
      · rfl
      · split
        · show ((commitCompaction _ _ _ _).chats).map _ = _
          unfold commitCompaction markSummarized
          rw [List.map_map]
          apply List.map_congr_left
          intro r _
          rw [Function.comp_apply]
          unfold setSummarizedIf
          split <;> rfl
        · rfl

/-- In a sorted cons list, every element's id is at most the last one's. -/
theorem le_getLastD_of_sorted :
    ∀ (l : List ChatRow) (d : ChatRow), List.Sorted chatLe (d :: l) →
      ∀ r ∈ d :: l, r.id ≤ (l.getLastD d).id := by
  intro l
  induction l with
  | nil =>
    intro d _ r hr
    rcases List.mem_cons.mp hr with h | h
    · rw [h]
      exact Nat.le_refl _
    · cases h
  | cons b t ih =>
    intro d hs r hr
    rw [List.getLastD_cons]
    rcases List.mem_cons.mp hr with h | h
    · have hdb : chatLe d b := List.rel_of_sorted_cons hs b (by simp)
      have hb : b.id ≤ (t.getLastD b).id := ih b hs.of_cons b (by simp)
      rw [h]
      exact Nat.le_trans hdb hb
    · exact ih b hs.of_cons r h

/-- The last element of a sorted chunk is one of its rows. -/
theorem getLastD_mem (l : List ChatRow) (d : ChatRow) : l.getLastD d ∈ d :: l :=
  List.getLastD_mem_cons l d

/-- What one successful compaction call does to the state: exactly the
`CHUNK_SIZE` oldest unsummarized rows of the session are flagged (and only
rows with those ids), and exactly one chapter is appended whose range is the
minimum and maximum id of the chunk. -/
def compactSuccessSpec (db : DB) (sid : String) (db' : DB) : Prop :=
  (selectChunk db sid).length = CHUNK_SIZE ∧
  (∀ r ∈ selectChunk db sid, r ∈ unsummarizedChats db sid) ∧
  (∀ r ∈ selectChunk db sid, ∀ q ∈ unsummarizedChats db sid,
    q.id ∉ (selectChunk db sid).map (fun x => x.id) → r.id ≤ q.id) ∧
  (∀ r ∈ db.chats, r.id ∈ (selectChunk db sid).map (fun x => x.id) →
    r ∈ selectChunk db sid) ∧
  db'.chats = db.chats.map (setSummarizedIf ((selectChunk db sid).map (fun x => x.id))) ∧
  (∃ ch : SummaryRow,
    db'.session_summaries = db.session_summaries ++ [ch] ∧
    ch.session_id = sid ∧
    ch.start_chat_id ∈ (selectChunk db sid).map (fun x => x.id) ∧
    ch.end_chat_id ∈ (selectChunk db sid).map (fun x => x.id) ∧
    (∀ r ∈ selectChunk db sid, ch.start_chat_id ≤ r.id ∧ r.id ≤ ch.end_chat_id))

theorem compact_success_spec_holds (db : DB) (sid m s : String)
    (hnodup : (db.chats.map (fun r => r.id)).Nodup)
    (hgt : ACTIVE_WINDOW_SIZE < countUnsummarized db sid) :
    compactSuccessSpec db sid (checkAndCompact db sid m (fun _ => Except.ok s) true true) := by
  have hlen := selectChunk_length db sid hgt
  cases hsel : selectChunk db sid with
  | nil =>
    rw [hsel] at hlen
    simp [CHUNK_SIZE] at hlen
  | cons r0 rest =>
    rw [checkAndCompact_success_eq db sid m s r0 rest hgt hsel]
    have hsorted : List.Sorted chatLe (r0 :: rest) := hsel ▸ selectChunk_sorted db sid
    refine ⟨hlen, fun r hr => mem_selectChunk_mem_unsummarized db sid hr,
      selectChunk_min db sid, sel_of_mem_ids db sid hnodup, ?_, ?_⟩
    · rw [hsel]
      rfl
    · refine ⟨⟨db.nextSummaryId, sid, pyStrip s, r0.id, (rest.getLastD r0).id⟩, ?_, rfl, ?_, ?_, ?_⟩
      · unfold commitCompaction
        rw [List.getLast?_cons]
        rcases hlast : rest.getLast? with _ | q
        · have : rest = [] := List.getLast?_eq_none_iff.mp hlast
          rw [this]
          rfl
        · have : rest.getLastD r0 = q := by
            rw [List.getLastD_eq_getLast?, hlast]
            rfl
          rw [this]
          rfl
      · rw [hsel]
        simp
      · rw [hsel]
        exact List.mem_map_of_mem (fun x => x.id) (getLastD_mem rest r0)
      · intro r hr
        rw [hsel] at hr
        constructor
        · rcases List.mem_cons.mp hr with h | h
          · rw [h]
          · exact List.rel_of_sorted_cons hsorted r h
        · exact le_getLastD_of_sorted rest r0 hsorted r hr

/-- One successful compaction lowers the session's unsummarized count by
exactly `CHUNK_SIZE`. -/
theorem checkAndCompact_success_count (db : DB) (sid m s : String)
    (hnodup : (db.chats.map (fun r => r.id)).Nodup)
    (hgt : ACTIVE_WINDOW_SIZE < countUnsummarized db sid) :
    countUnsummarized (checkAndCompact db sid m (fun _ => Except.ok s) true true) sid
      = countUnsummarized db sid - CHUNK_SIZE := by
  have hlen := selectChunk_length db sid hgt
  cases hsel : selectChunk db sid with
  | nil =>
    rw [hsel] at hlen
    simp [CHUNK_SIZE] at hlen
  | cons r0 rest =>
    rw [checkAndCompact_success_eq db sid m s r0 rest hgt hsel, ← hsel]
    exact count_commitCompaction db sid (pyStrip s) hnodup hgt

/-! ## Repeated invocation (drain) -/

/-- One always-successful compaction call, as iterated by the caller. -/
def compactStep (sid m s : String) (db : DB) : DB :=
  checkAndCompact db sid m (fun _ => Except.ok s) true true

/-- `k` successive calls to `check_and_compact` on a static backlog. -/
def compactIter (sid m s : String) : Nat → DB → DB
  | 0, db => db
  | Nat.succ n, db => compactStep sid m s (compactIter sid m s n db)

theorem compactIter_ids (sid m s : String) (k : Nat) (db : DB) :
    ((compactIter sid m s k db).chats).map (fun r => r.id)
      = db.chats.map (fun r => r.id) := by
  induction k with
  | zero => rfl
  | succ n ih =>
    show ((compactStep sid m s (compactIter sid m s n db)).chats).map (fun r => r.id) = _
    rw [compactStep, checkAndCompact_chats_ids, ih]

theorem compactIter_nodup (sid m s : String) (k : Nat) (db : DB)
    (hnodup : (db.chats.map (fun r => r.id)).Nodup) :
    (((compactIter sid m s k db).chats).map (fun r => r.id)).Nodup := by
  rw [compactIter_ids]
  exact hnodup

/-- Invariant of the drain loop: after `k` calls the count is either exactly
`B - CHUNK_SIZE * k` or already at most the window size. -/
theorem drain_invariant (db : DB) (sid m s : String)
    (hnodup : (db.chats.map (fun r => r.id)).Nodup) (k : Nat) :
    countUnsummarized (compactIter sid m s k db) sid
        = countUnsummarized db sid - CHUNK_SIZE * k
      ∨ countUnsummarized (compactIter sid m s k db) sid ≤ ACTIVE_WINDOW_SIZE := by
  induction k with
  | zero => left; simp [compactIter]
  | succ n ih =>
    have hnods := compactIter_nodup sid m s n db hnodup
    by_cases hle : countUnsummarized (compactIter sid m s n db) sid ≤ ACTIVE_WINDOW_SIZE
    · right
      show countUnsummarized (compactStep sid m s (compactIter sid m s n db)) sid ≤ _
      rw [compactStep, checkAndCompact_of_le _ _ _ _ _ _ hle]
      exact hle
    · have hgt := Nat.lt_of_not_le (fun h => hle h)
      have hstep : countUnsummarized (compactIter sid m s (n + 1) db) sid
          = countUnsummarized (compactIter sid m s n db) sid - CHUNK_SIZE := by
        show countUnsummarized (compactStep sid m s (compactIter sid m s n db)) sid = _
        rw [compactStep]
        exact checkAndCompact_success_count _ sid m s hnods hgt
      rcases ih with he | hle2
      · left
        rw [hstep, he, Nat.mul_succ]
        omega
      · exact absurd hle2 (fun h => hle h)

/-! ## Claim theorems -/

/-- C1: when the unsummarized count exceeds `ACTIVE_WINDOW_SIZE` and the
inference call raises or either database write fails, `check_and_compact`
changes nothing: no turn's `is_summarized` flag moves, no chapter row appears,
the unsummarized count is unchanged, and the error is swallowed at the
compaction boundary (the embedded function is total and returns the original
state instead of propagating the failure). -/
theorem C1_failure_leaves_state_unchanged (db : DB) (sid m : String)
    (chatFn : String → Except String String) (insertOk updateOk : Bool)
    (hgt : ACTIVE_WINDOW_SIZE < countUnsummarized db sid)
    (hfail : (∀ p, ∃ e, chatFn p = Except.error e)
      ∨ insertOk = false ∨ updateOk = false) :
    checkAndCompact db sid m chatFn insertOk updateOk = db ∧
    (checkAndCompact db sid m chatFn insertOk updateOk).chats = db.chats ∧
    (checkAndCompact db sid m chatFn insertOk updateOk).session_summaries
      = db.session_summaries ∧
    countUnsummarized (checkAndCompact db sid m chatFn insertOk updateOk) sid
      = countUnsummarized db sid := by
  have h := checkAndCompact_failure_eq db sid m chatFn insertOk updateOk hfail
  exact ⟨h, by rw [h], by rw [h], by rw [h]⟩

theorem C1_witness :
    (ACTIVE_WINDOW_SIZE < countUnsummarized dbBacklog "s")
    ∧ (∀ p : String, ∃ e,
        (fun _ : String => (Except.error "boom" : Except String String)) p = Except.error e)
    ∧ checkAndCompact dbBacklog "s" "m" (fun _ => Except.error "boom") true true = dbBacklog :=
  ⟨by decide, fun _ => ⟨"boom", rfl⟩,
    (C1_failure_leaves_state_unchanged dbBacklog "s" "m" (fun _ => Except.error "boom")
      true true (by decide) (Or.inl (fun _ => ⟨"boom", rfl⟩))).1⟩

/-- C2: with the unsummarized count above `ACTIVE_WINDOW_SIZE` and globally
unique chat ids, one successful `check_and_compact` call flags exactly the
`CHUNK_SIZE` oldest unsummarized turns of the session (ascending id) and
appends exactly one chapter whose `start_chat_id`/`end_chat_id` are the
minimum and maximum ids of those turns; no other turn or chapter is touched
(`compactSuccessSpec`). -/
theorem C2_exactly_one_chunk_per_call (db : DB) (sid m s : String)
    (hnodup : (db.chats.map (fun r => r.id)).Nodup)
    (hgt : ACTIVE_WINDOW_SIZE < countUnsummarized db sid) :
    compactSuccessSpec db sid
      (checkAndCompact db sid m (fun _ => Except.ok s) true true) :=
  compact_success_spec_holds db sid m s hnodup hgt

theorem C2_witness :
    ((dbBacklog.chats.map (fun r => r.id)).Nodup)
    ∧ (ACTIVE_WINDOW_SIZE < countUnsummarized dbBacklog "s")
    ∧ compactSuccessSpec dbBacklog "s"
        (checkAndCompact dbBacklog "s" "m" (fun _ => Except.ok "Summary.") true true) :=
  ⟨by decide, by decide,
    C2_exactly_one_chunk_per_call dbBacklog "s" "m" "Summary." (by decide) (by decide)⟩

/-- C3: when the session's unsummarized count is at most `ACTIVE_WINDOW_SIZE`,
`check_and_compact` is a pure no-op — the returned state equals the input
state, so no chapter is created and no turn is marked, for every inference
oracle and write outcome. -/
theorem C3_noop_at_or_below_threshold (db : DB) (sid m : String)
    (chatFn : String → Except String String) (insertOk updateOk : Bool)
    (hle : countUnsummarized db sid ≤ ACTIVE_WINDOW_SIZE) :
    checkAndCompact db sid m chatFn insertOk updateOk = db :=
  checkAndCompact_of_le db sid m chatFn insertOk updateOk hle

theorem C3_witness :
    (countUnsummarized dbBacklog "other" ≤ ACTIVE_WINDOW_SIZE)
    ∧ checkAndCompact dbBacklog "other" "m" (fun _ => Except.ok "S") true true = dbBacklog :=
  ⟨by decide,
    C3_noop_at_or_below_threshold dbBacklog "other" "m" (fun _ => Except.ok "S")
      true true (by decide)⟩

/-- C4: on a static backlog with unique chat ids, each successful call above
the threshold lowers the unsummarized count by exactly `CHUNK_SIZE`, each call
at or below the threshold is a no-op, and after
`⌈backlog / CHUNK_SIZE⌉` calls the count is at most `ACTIVE_WINDOW_SIZE`. -/
theorem C4_drain_convergence (db : DB) (sid m s : String)
    (hnodup : (db.chats.map (fun r => r.id)).Nodup)
    (hB : ACTIVE_WINDOW_SIZE < countUnsummarized db sid) :
    (∀ k, ACTIVE_WINDOW_SIZE < countUnsummarized (compactIter sid m s k db) sid →
       countUnsummarized (compactIter sid m s (k + 1) db) sid
         = countUnsummarized (compactIter sid m s k db) sid - CHUNK_SIZE) ∧
    (∀ k, countUnsummarized (compactIter sid m s k db) sid ≤ ACTIVE_WINDOW_SIZE →
       compactIter sid m s (k + 1) db = compactIter sid m s k db) ∧
    countUnsummarized
        (compactIter sid m s
          ((countUnsummarized db sid + CHUNK_SIZE - 1) / CHUNK_SIZE) db) sid
      ≤ ACTIVE_WINDOW_SIZE := by
  refine ⟨?_, ?_, ?_⟩
  · intro k hgt
    show countUnsummarized (compactStep sid m s (compactIter sid m s k db)) sid = _
    rw [compactStep]
    exact checkAndCompact_success_count _ sid m s (compactIter_nodup sid m s k db hnodup) hgt
  · intro k hle
    show compactStep sid m s (compactIter sid m s k db) = _
    rw [compactStep, checkAndCompact_of_le _ _ _ _ _ _ hle]
  · rcases drain_invariant db sid m s hnodup
        ((countUnsummarized db sid + CHUNK_SIZE - 1) / CHUNK_SIZE) with he | hle
    · rw [he]
      simp only [ACTIVE_WINDOW_SIZE, CHUNK_SIZE]
      omega
    · exact hle

theorem C4_witness :
    ((dbBacklog.chats.map (fun r => r.id)).Nodup)
    ∧ (ACTIVE_WINDOW_SIZE < countUnsummarized dbBacklog "s")
    ∧ countUnsummarized
        (compactIter "s" "m" "S"
          ((countUnsummarized dbBacklog "s" + CHUNK_SIZE - 1) / CHUNK_SIZE) dbBacklog) "s"
      ≤ ACTIVE_WINDOW_SIZE :=
  ⟨by decide, by decide,
    (C4_drain_convergence dbBacklog "s" "m" "S" (by decide) (by decide)).2.2⟩

/-- C5 counterexample: at the Scenario-B input the claimed exact layout fails
in two places — no delimiter line reads `=== LONG-TERM MEMORY ===` (the actual
label carries a `(RAG)` suffix), and the PREVIOUS SESSION CONTEXT section does
not read exactly `"New session started."` (it opens with a fixed explanation
line). -/
theorem C5_counterexample :
    ((promptLines scenarioBPrompt).contains "=== LONG-TERM MEMORY ===" = false)
    ∧ ((promptLines scenarioBPrompt).contains "=== LONG-TERM MEMORY (RAG) ===" = true)
    ∧ dropTrailingBlanks
        (sectionBody (promptLines scenarioBPrompt) "=== PREVIOUS SESSION CONTEXT ===")
      ≠ ["New session started."] :=
  ⟨by decide, by decide, by decide⟩

set_option maxRecDepth 100000 in
/-- C5 (amended): the renderer is the fixed-section template with the actual
labels — SYSTEM, IDENTITY, PREVIOUS SESSION CONTEXT (whose body always starts
with the line `(Summary of earlier conversation)`), LONG-TERM MEMORY (RAG),
RETRIEVED DOCUMENTS, RECENT HISTORY, CURRENT MESSAGE — ending with the literal
suffix `Assistant:`; on the empty Scenario-B input the three memory sections
carry exactly the fallback lines `New session started.`,
`No relevant long-term memories.` and `No relevant documents found.`. -/
theorem C5_render_fixed_template :
    (∀ schema, render_final_prompt schema = specRenderedPrompt schema)
    ∧ scenarioBPrompt =
      "=== SYSTEM ===\nYou are a helpful local assistant.\n\n=== IDENTITY ===\nUser: Guest\nWorkspace: Guest Workspace\n\n=== PREVIOUS SESSION CONTEXT ===\n(Summary of earlier conversation)\nNew session started.\n\n=== LONG-TERM MEMORY (RAG) ===\nNo relevant long-term memories.\n\n=== RETRIEVED DOCUMENTS ===\nNo relevant documents found.\n\n=== RECENT HISTORY ===\n\n=== CURRENT MESSAGE ===\nUser: Hello\n\nAssistant:" := by
  constructor
  · intro schema
    apply String.ext
    simp [render_final_prompt, specRenderedPrompt, specSectionsOf, String.join]
  · decide

/-- C6: `get_session_summary` returns the chapters' contents in ascending
chapter-id order, each prefixed `"- "` and joined by newlines, the chapter
list being exactly the session's stored chapters sorted by id; it returns the
empty string when the session has no chapters. -/
theorem C6_summary_concatenation_order (db : DB) (sid : String) :
    get_session_summary db sid
      = (if chaptersOf db sid = [] then ""
         else String.intercalate "\n" ((chaptersOf db sid).map (fun r => "- " ++ r.content)))
    ∧ List.Sorted sumLe (chaptersOf db sid)
    ∧ List.Perm (chaptersOf db sid)
        (db.session_summaries.filter (fun r => r.session_id == sid))
    ∧ ((∀ r ∈ db.session_summaries, r.session_id ≠ sid) →
        get_session_summary db sid = "") := by
  refine ⟨?_, List.sorted_insertionSort sumLe _, List.perm_insertionSort sumLe _, ?_⟩
  · unfold get_session_summary getSessionSummaryFrom
    cases h : chaptersOf db sid with
    | nil => simp [summaryText]
    | cons a l => simp [summaryText]
  · intro hall
    have hfilter : db.session_summaries.filter (fun r => r.session_id == sid) = [] := by
      rw [List.filter_eq_nil_iff]
      intro r hr
      simpa using hall r hr
    unfold get_session_summary getSessionSummaryFrom chaptersOf
    rw [hfilter]
    rfl

/-- Chapters stored out of id order, plus a chapter of an unrelated session. -/
def dbChaptersW : DB :=
  { users := [], model_configs := [], chats := [],
    session_summaries :=
      [⟨2, "s", "beta", 6, 9⟩, ⟨1, "s", "alpha", 1, 5⟩, ⟨3, "t", "gamma", 1, 4⟩],
    nextSummaryId := 4 }

theorem C6_witness :
    (∀ r ∈ dbChaptersW.session_summaries, r.session_id ≠ "none")
    ∧ get_session_summary dbChaptersW "none" = "" :=
  ⟨by decide, (C6_summary_concatenation_order dbChaptersW "none").2.2.2 (by decide)⟩

/-- C7 counterexample: two `build_context_schema` calls with identical
arguments but different stored database state (one chapter for the default
session versus none) produce different schemas, so the schema is not a pure
function of the supplied arguments alone. -/
theorem C7_counterexample :
    build_context_schema dbOneChapter "Hello" "foo-bar" none [] "" [] none
      ≠ build_context_schema emptyDB "Hello" "foo-bar" none [] "" [] none := by
  decide

/-- C7 (amended): `build_context_schema` performs exactly three database
reads — the `demo_user` user row, the model-config row of the requested model,
and the `default_session` chapter rows; the resulting schema is a pure
function of its arguments together with those reads, so two databases that
agree on them yield identical schemas for identical arguments. -/
theorem C7_schema_determined_by_reads (db1 db2 : DB) (msg model : String)
    (ov : Option String) (mem : List Memory) (rag : String) (hist : List HistItem)
    (ido : Option Overrides)
    (hu : findUser db1 "demo_user" = findUser db2 "demo_user")
    (hm : findModel db1 model = findModel db2 model)
    (hs : db1.session_summaries.filter (fun r => r.session_id == "default_session")
        = db2.session_summaries.filter (fun r => r.session_id == "default_session")) :
    build_context_schema db1 msg model ov mem rag hist ido
      = build_context_schema db2 msg model ov mem rag hist ido := by
  unfold build_context_schema get_user_profile get_model_profile get_session_summary chaptersOf
  rw [hu, hm, hs]

/-- A database whose extra state (an unrelated chat row and a chapter of a
different session) is invisible to the three aggregator reads. -/
def dbNoise : DB :=
  { users := [], model_configs := [], chats := [mkChat 1 "x" "user" "hi"],
    session_summaries := [⟨1, "other_session", "noise", 1, 1⟩],
    nextSummaryId := 2 }

theorem C7_witness :
    (findUser dbNoise "demo_user" = findUser emptyDB "demo_user")
    ∧ (findModel dbNoise "foo-bar" = findModel emptyDB "foo-bar")
    ∧ (dbNoise.session_summaries.filter (fun r => r.session_id == "default_session")
        = emptyDB.session_summaries.filter (fun r => r.session_id == "default_session"))
    ∧ build_context_schema dbNoise "Hi" "foo-bar" none [] "" [] none
        = build_context_schema emptyDB "Hi" "foo-bar" none [] "" [] none :=
  ⟨by decide, by decide, by decide,
    C7_schema_determined_by_reads dbNoise emptyDB "Hi" "foo-bar" none [] "" [] none
      (by decide) (by decide) (by decide)⟩

/-- C8 counterexample: `"phi3-qwen"` contains both family tokens yet its
synthesized profile carries only the phi3 adjustments — the qwen base-prompt
adjustment is not applied, refuting order-independence as claimed. -/
theorem C8_counterexample :
    strContainsSub "phi3-qwen" "phi3" = true
    ∧ strContainsSub "phi3-qwen" "qwen" = true
    ∧ findModel emptyDB "phi3-qwen" = none
    ∧ (get_model_profile emptyDB "phi3-qwen").base_system_prompt
        ≠ "You are Qwen, a helpful assistant."
    ∧ (get_model_profile emptyDB "phi3-qwen").display_name = "Phi-3 Mini" :=
  ⟨by decide, by decide, by decide, by decide, by decide⟩

/-- C8 (amended): for model names absent from the configuration store the
substring heuristic is position-independent but precedence-ordered: the
profile depends only on which family tokens occur in the name, with `"phi3"`
taking precedence over `"qwen"` when both occur. -/
theorem C8_heuristic_token_dependence (db : DB) (name : String)
    (habs : findModel db name = none) :
    (strContainsSub name "phi3" = true →
      (get_model_profile db name).display_name = "Phi-3 Mini"
      ∧ (get_model_profile db name).context_limit = 128000
      ∧ (get_model_profile db name).base_system_prompt
          = "You are a helpful local assistant.")
    ∧ (strContainsSub name "phi3" = false → strContainsSub name "qwen" = true →
      (get_model_profile db name).display_name = "Qwen 2.5"
      ∧ (get_model_profile db name).context_limit = 4096
      ∧ (get_model_profile db name).base_system_prompt
          = "You are Qwen, a helpful assistant.")
    ∧ (strContainsSub name "phi3" = false → strContainsSub name "qwen" = false →
      (get_model_profile db name).display_name = name
      ∧ (get_model_profile db name).context_limit = 4096
      ∧ (get_model_profile db name).base_system_prompt
          = "You are a helpful local assistant.")
    ∧ (∀ name2 : String, findModel db name2 = none →
      strContainsSub name "phi3" = strContainsSub name2 "phi3" →
      strContainsSub name "qwen" = strContainsSub name2 "qwen" →
      (get_model_profile db name).context_limit
          = (get_model_profile db name2).context_limit
      ∧ (get_model_profile db name).base_system_prompt
          = (get_model_profile db name2).base_system_prompt) := by
  have hprof : get_model_profile db name = defaultModelProfile name := by
    unfold get_model_profile
    rw [habs]
  refine ⟨?_, ?_, ?_, ?_⟩
  · intro h1
    rw [hprof]
    simp [defaultModelProfile, h1]
  · intro h1 h2
    rw [hprof]
    simp [defaultModelProfile, h1, h2]
  · intro h1 h2
    rw [hprof]
    simp [defaultModelProfile, h1, h2]
  · intro name2 habs2 e1 e2
    have hprof2 : get_model_profile db name2 = defaultModelProfile name2 := by
      unfold get_model_profile
      rw [habs2]
    rw [hprof, hprof2]
    cases hp : strContainsSub name "phi3" <;> cases hq : strContainsSub name "qwen" <;>
      simp [defaultModelProfile, hp, hq, e1.symm.trans hp, e2.symm.trans hq]

theorem C8_witness :
    (findModel emptyDB "my-phi3-model" = none)
    ∧ strContainsSub "my-phi3-model" "phi3" = true
    ∧ (get_model_profile emptyDB "my-phi3-model").context_limit = 128000 :=
  ⟨by decide, by decide,
    ((C8_heuristic_token_dependence emptyDB "my-phi3-model" (by decide)).1 (by decide)).2.1⟩

/-- C9: `get_session_summary` swallows database errors into the empty string,
which is exactly what a session without chapters returns, and the aggregator
then substitutes `"New session started."` as if the session were new. -/
theorem C9_summary_error_swallowed (e : String) (db : DB) (sid : String) :
    getSessionSummaryFrom (Except.error e) = ""
    ∧ getSessionSummaryFrom (Except.error e) = getSessionSummaryFrom (Except.ok [])
    ∧ (chaptersOf db sid = [] → get_session_summary db sid = "")
    ∧ shortTermBlock (getSessionSummaryFrom (Except.error e)) = "New session started." := by
  refine ⟨rfl, rfl, ?_, rfl⟩
  intro h
  unfold get_session_summary getSessionSummaryFrom
  rw [h]
  rfl

theorem C9_witness :
    (chaptersOf emptyDB "default_session" = [])
    ∧ get_session_summary emptyDB "default_session" = "" :=
  ⟨by decide,
    (C9_summary_error_swallowed "db locked" emptyDB "default_session").2.2.1 (by decide)⟩

/-- C10: any history item whose role is not exactly `'user'` — `system`,
`tool`, anything — is rendered as an `Assistant:` line by the prompt
renderer's history formatter, and as an `AI:` line by the compaction chunk
formatter. -/
theorem C10_non_user_roles (role content : String) (i : Nat) (sid : String)
    (b : Bool) (h : role ≠ "user") :
    histLine ⟨role, content⟩ = "Assistant: " ++ (content ++ "\n")
    ∧ chunkLine ⟨i, sid, role, content, b⟩ = "AI: " ++ (content ++ "\n") := by
  constructor
  · apply String.ext
    simp [histLine, h]
  · apply String.ext
    simp [chunkLine, h]

theorem C10_witness :
    (("system" : String) ≠ "user")
    ∧ histLine ⟨"system", "note"⟩ = "Assistant: " ++ ("note" ++ "\n") :=
  ⟨by decide, (C10_non_user_roles "system" "note" 1 "s" false (by decide)).1⟩

end LocalMIND
